import Mathlib

/-!
Verification of the exchange-agentic-ai metrics/classification/cache subsystem.

Shallow embedding of the Python sources:
  * `NodeMetrics`    — src/ai/node_metrics.py (NodeMetricsCollector)
  * `ServiceMetrics` — src/ai/service_metrics.py (ServiceMetricsCollector)
  * `AIMetrics`      — src/ai/metrics.py (MetricsCollector)
  * `OrgCache`       — src/organizations.py (CacheEntry, OrganizationManager cache)
  * `Agents`         — src/ai/node_agent.py and src/ai/service_agent.py

Python floats are modelled as rationals (plus an `inf` point where the source
uses `float('inf')`), dicts as ordered association lists, timestamps as
integers, and exceptions as `Except`.
-/

/-- First-match lookup in an association list, mirroring Python `dict[k]` /
`k in dict` on dicts (keys are unique in a dict, so first match is the match). -/
def lookupKey (k : String) : List (String × α) → Option α
  | [] => none
  | (k', v) :: rest => if k' = k then some v else lookupKey k rest

theorem lookupKey_nil (k : String) : lookupKey k ([] : List (String × α)) = none := rfl

theorem lookupKey_ne_nil_of_some {k : String} {l : List (String × α)} {v : α}
    (h : lookupKey k l = some v) : l ≠ [] := by
  intro he; subst he; simp [lookupKey] at h

namespace NodeMetrics

/-- Threshold table of `NodeMetricsCollector.__init__` (node_metrics.py:22-31). -/
structure Thresholds where
  cpu_warning : ℚ
  cpu_critical : ℚ
  memory_warning : ℚ
  memory_critical : ℚ
  disk_warning : ℚ
  disk_critical : ℚ
  temp_warning : ℚ
  temp_critical : ℚ

/-- Built-in defaults (node_metrics.py:22-31, no config overrides). -/
def defaultThresholds : Thresholds :=
  { cpu_warning := 70, cpu_critical := 90
    memory_warning := 70, memory_critical := 90
    disk_warning := 80, disk_critical := 95
    temp_warning := 70, temp_critical := 80 }

/-- One per-metric statistics dict as produced by
`NodeMetricsCollector._calculate_statistics` (node_metrics.py:115-132):
`{'mean': v, 'min': v, 'max': v}`. -/
structure Stat where
  mean : ℚ
  min : ℚ
  max : ℚ
deriving DecidableEq

/-- `NodeMetricsCollector._determine_status` (node_metrics.py:158-189).
`if not stats` maps to the empty dict; the cpu/memory block runs only when
both `'cpu_usage'` and `'memory_usage'` are keys of `stats`, and `return`s
as soon as a critical or warning bound is exceeded; otherwise control falls
through to the disk check. -/
def determineStatus (t : Thresholds) (stats : List (String × Stat)) : String :=
  if stats.isEmpty then "unknown"
  else
    let diskCheck : String :=
      match lookupKey "disk_usage" stats with
      | some d =>
        if d.mean > t.disk_critical then "offline"
        else if d.mean > t.disk_warning then "degraded"
        else "online"
      | none => "online"
    match lookupKey "cpu_usage" stats, lookupKey "memory_usage" stats with
    | some c, some m =>
      if c.mean > t.cpu_critical ∨ m.mean > t.memory_critical then "offline"
      else if c.mean > t.cpu_warning ∨ m.mean > t.memory_warning then "degraded"
      else diskCheck
    | some _, none => diskCheck
    | none, some _ => diskCheck
    | none, none => diskCheck

/-- `NodeMetricsCollector._determine_health` (node_metrics.py:191-222): same
shape as `_determine_status`, with the temperature check in place of disk. -/
def determineHealth (t : Thresholds) (stats : List (String × Stat)) : String :=
  if stats.isEmpty then "unknown"
  else
    let tempCheck : String :=
      match lookupKey "temperature" stats with
      | some e =>
        if e.mean > t.temp_critical then "critical"
        else if e.mean > t.temp_warning then "warning"
        else "healthy"
      | none => "healthy"
    match lookupKey "cpu_usage" stats, lookupKey "memory_usage" stats with
    | some c, some m =>
      if c.mean > t.cpu_critical ∨ m.mean > t.memory_critical then "critical"
      else if c.mean > t.cpu_warning ∨ m.mean > t.memory_warning then "warning"
      else tempCheck
    | some _, none => tempCheck
    | none, some _ => tempCheck
    | none, none => tempCheck

/-- The statistics map of claim C1's counterexample: cpu warning-only (75),
memory below warning (50), disk above critical (96). -/
def cexStats : List (String × Stat) :=
  [("cpu_usage", ⟨75, 75, 75⟩), ("memory_usage", ⟨50, 50, 50⟩), ("disk_usage", ⟨96, 96, 96⟩)]

/-- C1 counterexample: with cpu at 75 (warning only) and disk at 96 (above the
disk critical bound 95), `_determine_status` returns `'degraded'`, not
`'offline'` — the warning branch returns before the disk check is reached. -/
theorem determineStatus_warning_not_overridden_by_disk_cex :
    determineStatus defaultThresholds cexStats = "degraded" ∧
    (decide (determineStatus defaultThresholds cexStats = "offline")) = false := by
  constructor <;> decide

/-- C1 (amended): whenever both `cpu_usage` and `memory_usage` are present,
one of their means exceeds only the warning bound (neither exceeds critical),
and `disk_usage`'s mean exceeds the disk critical bound, `_determine_status`
returns `'degraded'`: the warning-only branch returns immediately and the
disk-critical check is never reached. -/
theorem determineStatus_warning_beats_disk_critical
    (stats : List (String × Stat)) (c m d : Stat)
    (hc : lookupKey "cpu_usage" stats = some c)
    (hm : lookupKey "memory_usage" stats = some m)
    (hw : c.mean > 70 ∨ m.mean > 70)
    (hnc : c.mean ≤ 90) (hnm : m.mean ≤ 90)
    (hd : lookupKey "disk_usage" stats = some d)
    (hdc : d.mean > 95) :
    determineStatus defaultThresholds stats = "degraded" := by
  have hne : stats.isEmpty = false := by
    cases stats with
    | nil => exact absurd hc (by simp [lookupKey])
    | cons a l => rfl
  simp only [determineStatus, defaultThresholds, hne, Bool.false_eq_true, if_false, hc, hm]
  rw [if_neg (by push_neg; exact ⟨by linarith, by linarith⟩), if_pos hw]

/-- Witness for the amended C1 theorem at the concrete counterexample input. -/
theorem determineStatus_warning_beats_disk_critical_witness :
    determineStatus defaultThresholds cexStats = "degraded" :=
  determineStatus_warning_beats_disk_critical cexStats ⟨75, 75, 75⟩ ⟨50, 50, 50⟩ ⟨96, 96, 96⟩
    (by decide) (by decide) (Or.inl (by norm_num)) (by norm_num) (by norm_num)
    (by decide) (by norm_num)

/-- C9: the cpu/memory threshold block runs only when both `cpu_usage` and
`memory_usage` are present: with `cpu_usage` above critical but `memory_usage`
absent, and no disk or temperature breach, the classifiers return
`status = 'online'` and `health = 'healthy'`. -/
theorem status_health_need_both_cpu_and_memory
    (stats : List (String × Stat)) (c : Stat)
    (hc : lookupKey "cpu_usage" stats = some c)
    (hcrit : c.mean > 90)
    (hm : lookupKey "memory_usage" stats = none)
    (hd : ∀ d : Stat, lookupKey "disk_usage" stats = some d → d.mean ≤ 80)
    (ht : ∀ e : Stat, lookupKey "temperature" stats = some e → e.mean ≤ 70) :
    determineStatus defaultThresholds stats = "online" ∧
    determineHealth defaultThresholds stats = "healthy" := by
  have hne : stats.isEmpty = false := by
    cases stats with
    | nil => exact absurd hc (by simp [lookupKey])
    | cons a l => rfl
  constructor
  · simp only [determineStatus, defaultThresholds, hne, Bool.false_eq_true, if_false, hc, hm]
    cases hdisk : lookupKey "disk_usage" stats with
    | none => simp
    | some d =>
      have := hd d hdisk
      simp only []
      rw [if_neg (by linarith), if_neg (by linarith)]
  · simp only [determineHealth, defaultThresholds, hne, Bool.false_eq_true, if_false, hc, hm]
    cases htemp : lookupKey "temperature" stats with
    | none => simp
    | some e =>
      have := ht e htemp
      simp only []
      rw [if_neg (by linarith), if_neg (by linarith)]

/-- Witness for C9 at a one-entry statistics map: cpu at 95, no memory entry. -/
theorem status_health_need_both_cpu_and_memory_witness :
    determineStatus defaultThresholds [("cpu_usage", ⟨95, 95, 95⟩)] = "online" ∧
    determineHealth defaultThresholds [("cpu_usage", ⟨95, 95, 95⟩)] = "healthy" :=
  status_health_need_both_cpu_and_memory [("cpu_usage", ⟨95, 95, 95⟩)] ⟨95, 95, 95⟩
    (by decide) (by norm_num)
    (by decide)
    (fun d h => by simp [lookupKey] at h)
    (fun e h => by simp [lookupKey] at h)

end NodeMetrics

namespace ServiceMetrics

/-- A Python float value as used by `ServiceMetricsCollector`: a finite value
or `float('inf')` (the default for a missing `response_time`,
service_metrics.py:197). -/
inductive PyFloat where
  | fin (q : ℚ)
  | inf
deriving DecidableEq

/-- `v > bound` for a Python float against a finite threshold. -/
def PyFloat.gtq : PyFloat → ℚ → Bool
  | .fin q, b => q > b
  | .inf, _ => true

/-- Threshold table of `ServiceMetricsCollector.__init__`
(service_metrics.py:27-36). -/
structure Thresholds where
  cpu_warning : ℚ
  cpu_critical : ℚ
  memory_warning : ℚ
  memory_critical : ℚ
  response_warning : ℚ
  response_critical : ℚ
  error_warning : ℚ
  error_critical : ℚ

/-- Built-in defaults (service_metrics.py:27-36, no config overrides);
0.05 and 0.10 are written as exact rationals. -/
def defaultThresholds : Thresholds :=
  { cpu_warning := 80, cpu_critical := 90
    memory_warning := 80, memory_critical := 90
    response_warning := 1000, response_critical := 2000
    error_warning := 5/100, error_critical := 10/100 }

/-- The mutable locals of `_analyze_entity_metrics`
(service_metrics.py:167-170): `status`, `health`, `alerts`,
`recommendations`. -/
structure SvcState where
  status : String
  health : String
  alerts : List String
  recommendations : List String
deriving DecidableEq

/-- One `if value > critical: ... elif value > warning: ...` block of
`_analyze_entity_metrics` (service_metrics.py:172-218). The critical branch
sets `status = 'critical'` and `health = 'poor'`; the warning branch sets
`status = 'warning'` and leaves `health` unchanged; both append one alert and
one recommendation. -/
def checkMetric (value : PyFloat) (crit warn : ℚ)
    (critAlert critRec warnAlert warnRec : String) (acc : SvcState) : SvcState :=
  if value.gtq crit then
    { status := "critical"
      health := "poor"
      alerts := acc.alerts ++ [critAlert]
      recommendations := acc.recommendations ++ [critRec] }
  else if value.gtq warn then
    { acc with
      status := "warning"
      alerts := acc.alerts ++ [warnAlert]
      recommendations := acc.recommendations ++ [warnRec] }
  else acc

/-- `ServiceMetricsCollector._analyze_entity_metrics`
(service_metrics.py:157-226): starts from `status='healthy'`,
`health='good'`, then checks cpu, memory, response time and error rate in
order. Missing cpu/memory/error metrics default to `0.0`; a missing
`response_time` defaults to `float('inf')`. -/
def analyzeEntityMetrics (t : Thresholds) (metrics : List (String × PyFloat)) : SvcState :=
  let s0 : SvcState := ⟨"healthy", "good", [], []⟩
  let s1 := checkMetric ((lookupKey "cpu_usage" metrics).getD (.fin 0))
    t.cpu_critical t.cpu_warning
    "Critical CPU usage" "Immediate CPU scaling required"
    "High CPU usage" "Consider scaling up CPU resources" s0
  let s2 := checkMetric ((lookupKey "memory_usage" metrics).getD (.fin 0))
    t.memory_critical t.memory_warning
    "Critical memory usage" "Immediate memory scaling required"
    "High memory usage" "Consider scaling up memory resources" s1
  let s3 := checkMetric ((lookupKey "response_time" metrics).getD .inf)
    t.response_critical t.response_warning
    "Critical response time" "Immediate performance optimization required"
    "High response time" "Investigate performance bottlenecks" s2
  checkMetric ((lookupKey "error_rate" metrics).getD (.fin 0))
    t.error_critical t.error_warning
    "Critical error rate" "Immediate error investigation required"
    "High error rate" "Investigate error sources" s3

/-- The metrics map of claim C3's scenario: error_rate 0.06, everything else
well below its warning bound. -/
def cexMetrics : List (String × PyFloat) :=
  [("cpu_usage", .fin 0), ("memory_usage", .fin 0),
   ("response_time", .fin 100), ("error_rate", .fin (6/100))]

/-- Full evaluation of the service analysis at the C3 scenario. -/
theorem analyzeEntityMetrics_cex_eval :
    analyzeEntityMetrics defaultThresholds cexMetrics =
    ⟨"warning", "good", ["High error rate"], ["Investigate error sources"]⟩ := by
  simp [analyzeEntityMetrics, checkMetric, cexMetrics, defaultThresholds, lookupKey, PyFloat.gtq]
  norm_num

/-- C3 counterexample: with error_rate 0.06 and no other breach, the service
analysis returns `status = 'warning'` (error rate does drive status) and
`health = 'good'`, not `status = 'running'` / `health = 'warning'`. -/
theorem service_error_rate_sets_status_warning_cex :
    (analyzeEntityMetrics defaultThresholds cexMetrics).status = "warning" ∧
    (analyzeEntityMetrics defaultThresholds cexMetrics).health = "good" ∧
    (decide ((analyzeEntityMetrics defaultThresholds cexMetrics).status = "running")) = false ∧
    (decide ((analyzeEntityMetrics defaultThresholds cexMetrics).health = "warning")) = false := by
  rw [analyzeEntityMetrics_cex_eval]
  exact ⟨rfl, rfl, rfl, rfl⟩

/-- C3 (amended): for every metrics map with `error_rate = 0.06` and every
other checked metric below its warning bound, `_analyze_entity_metrics`
returns `status = 'warning'` and `health = 'good'`, with the warning alert
`'High error rate'`. -/
theorem service_error_rate_warning
    (metrics : List (String × PyFloat))
    (hcpu1 : ((lookupKey "cpu_usage" metrics).getD (.fin 0)).gtq 90 = false)
    (hcpu2 : ((lookupKey "cpu_usage" metrics).getD (.fin 0)).gtq 80 = false)
    (hmem1 : ((lookupKey "memory_usage" metrics).getD (.fin 0)).gtq 90 = false)
    (hmem2 : ((lookupKey "memory_usage" metrics).getD (.fin 0)).gtq 80 = false)
    (hrt1 : ((lookupKey "response_time" metrics).getD .inf).gtq 2000 = false)
    (hrt2 : ((lookupKey "response_time" metrics).getD .inf).gtq 1000 = false)
    (herr : lookupKey "error_rate" metrics = some (.fin (6/100))) :
    (analyzeEntityMetrics defaultThresholds metrics).status = "warning" ∧
    (analyzeEntityMetrics defaultThresholds metrics).health = "good" ∧
    "High error rate" ∈ (analyzeEntityMetrics defaultThresholds metrics).alerts := by
  have h1 : PyFloat.gtq (.fin (6/100)) (10/100) = false := by
    simp only [PyFloat.gtq, decide_eq_false_iff_not]
    norm_num
  have h2 : PyFloat.gtq (.fin (6/100)) (5/100) = true := by
    simp only [PyFloat.gtq, decide_eq_true_eq]
    norm_num
  simp only [analyzeEntityMetrics, defaultThresholds, checkMetric,
    hcpu1, hcpu2, hmem1, hmem2, hrt1, hrt2, herr, Option.getD_some, h1, h2,
    Bool.false_eq_true, if_false, if_true]
  refine ⟨trivial, trivial, ?_⟩
  simp

/-- Witness for the amended C3 theorem at the concrete metrics map. -/
theorem service_error_rate_warning_witness :
    (analyzeEntityMetrics defaultThresholds cexMetrics).status = "warning" ∧
    (analyzeEntityMetrics defaultThresholds cexMetrics).health = "good" ∧
    "High error rate" ∈ (analyzeEntityMetrics defaultThresholds cexMetrics).alerts :=
  service_error_rate_warning cexMetrics rfl rfl rfl rfl rfl rfl rfl

end ServiceMetrics

namespace AIMetrics

/-- One entry of `MetricsCollector._metrics_history` (metrics.py:19-22):
`{'timestamp': <time>, 'data': <metrics dict>}`. ISO timestamps are totally
ordered by time, so they are modelled as integers; `data` keeps only the
numeric values (non-numeric values are ignored by every consumer,
metrics.py:100). -/
structure HistEntry where
  timestamp : Int
  data : List (String × ℚ)
deriving DecidableEq

/-- `MetricsCollector._cleanup_old_metrics` (metrics.py:79-85): keep exactly
the entries with `timestamp > now - window`. -/
def cleanupOldMetrics (window now : Int) (hist : List HistEntry) : List HistEntry :=
  hist.filter (fun m => decide (now - window < m.timestamp))

/-- `MetricsCollector.add_metrics` (metrics.py:13-23): append a
`{'timestamp': now, 'data': metrics}` entry, then clean up by age. -/
def addMetrics (window now : Int) (hist : List HistEntry)
    (data : List (String × ℚ)) : List HistEntry :=
  cleanupOldMetrics window now (hist ++ [⟨now, data⟩])

/-- Record one numeric value under a metric name, preserving Python dict
insertion order (`_extract_numeric_values`, metrics.py:96-103). -/
def addValue : List (String × List ℚ) → String → ℚ → List (String × List ℚ)
  | [], k, v => [(k, [v])]
  | (k', vs) :: rest, k, v =>
    if k' = k then (k', vs ++ [v]) :: rest else (k', vs) :: addValue rest k v

/-- `MetricsCollector._extract_numeric_values` (metrics.py:87-105): gather,
per metric name, the list of numeric values across the window in order. -/
def extractNumericValues (metrics : List (List (String × ℚ))) : List (String × List ℚ) :=
  metrics.foldl (fun acc snap => snap.foldl (fun a kv => addValue a kv.1 kv.2) acc) []

def sumQ (l : List ℚ) : ℚ := l.foldl (· + ·) 0

/-- Slope of the ordinary least-squares line of `values` against the sample
index `0, 1, ...` (`statistics.linear_regression(x, values)[0]`,
metrics.py:147-149). -/
def slopeOf (values : List ℚ) : ℚ :=
  let n : ℚ := values.length
  let xs : List ℚ := (List.range values.length).map (fun i => (i : ℚ))
  let xbar := sumQ xs / n
  let ybar := sumQ values / n
  sumQ (List.zipWith (fun x y => (x - xbar) * (y - ybar)) xs values) /
    sumQ (xs.map (fun x => (x - xbar) * (x - xbar)))

/-- The per-metric body of `MetricsCollector._analyze_trends`
(metrics.py:142-156): fewer than 2 values ⇒ `'insufficient_data'`; else
classify the regression slope. -/
def trendOf (values : List ℚ) : String :=
  if values.length < 2 then "insufficient_data"
  else if |slopeOf values| < 1/100 then "stable"
  else if slopeOf values > 0 then "increasing"
  else "decreasing"

/-- `MetricsCollector._analyze_trends` (metrics.py:130-158). -/
def analyzeTrends (metrics : List (List (String × ℚ))) : List (String × String) :=
  (extractNumericValues metrics).map (fun kv => (kv.1, trendOf kv.2))

theorem lookupKey_map_snd (f : α → β) (k : String) :
    ∀ l : List (String × α),
      lookupKey k (l.map (fun kv => (kv.1, f kv.2))) = (lookupKey k l).map f
  | [] => rfl
  | (k', v) :: rest => by
    by_cases h : k' = k <;> simp [lookupKey, h, lookupKey_map_snd f k rest]

/-- C4 counterexample: a window holding a single `cpu` sample gets trend
`'insufficient_data'`, not `'unknown'`. -/
theorem trend_single_sample_cex :
    lookupKey "cpu" (analyzeTrends [[("cpu", (1 : ℚ))]]) = some "insufficient_data" ∧
    (decide (lookupKey "cpu" (analyzeTrends [[("cpu", (1 : ℚ))]]) = some "unknown")) = false :=
  ⟨rfl, rfl⟩

/-- C4 (amended): every metric with fewer than 2 numeric observations in the
window is assigned the trend value `'insufficient_data'` (the string the code
uses; the spec's word `'unknown'` never appears in `_analyze_trends`). -/
theorem trend_lt_two_samples
    (metrics : List (List (String × ℚ))) (k : String) (vs : List ℚ)
    (h : lookupKey k (extractNumericValues metrics) = some vs)
    (hlen : vs.length < 2) :
    lookupKey k (analyzeTrends metrics) = some "insufficient_data" := by
  rw [analyzeTrends, lookupKey_map_snd, h]
  simp [trendOf, hlen]

/-- Witness for the amended C4 theorem: one snapshot, one sample. -/
theorem trend_lt_two_samples_witness :
    lookupKey "cpu" (analyzeTrends [[("cpu", (1 : ℚ))]]) = some "insufficient_data" :=
  trend_lt_two_samples [[("cpu", (1 : ℚ))]] "cpu" [1] rfl (by norm_num)

theorem filter_all_self (f : α → Bool) : ∀ l : List α, (l.filter f).all f = true
  | [] => rfl
  | a :: l => by
    cases h : f a <;> simp [List.filter_cons, h, filter_all_self f l]

/-- C5 (amended): after any `add_metrics` (which appends and then cleans up),
every retained entry is newer than `now - window`: the age bound holds. No
count bound exists in the code. -/
theorem addMetrics_age_bound (window now : Int) (hist : List HistEntry)
    (data : List (String × ℚ)) :
    ((addMetrics window now hist data).all
      (fun e => decide (now - window < e.timestamp))) = true := by
  simp only [addMetrics, cleanupOldMetrics]
  exact filter_all_self _ _

/-- C5 counterexample: 1000 fresh entries plus one append all survive cleanup,
so the history holds 1001 > 1000 entries — no maximum-count bound is
enforced. -/
theorem history_count_unbounded_cex :
    (addMetrics 3600 0 (List.replicate 1000 ⟨0, []⟩) []).length = 1001 ∧
    (decide ((1001 : ℕ) ≤ 1000)) = false := by
  constructor
  · have h : addMetrics 3600 0 (List.replicate 1000 ⟨0, []⟩) [] =
        List.replicate 1000 (⟨0, []⟩ : HistEntry) ++ [⟨0, []⟩] := by
      unfold addMetrics cleanupOldMetrics
      apply List.filter_eq_self.mpr
      intro a ha
      have ha0 : a = (⟨0, []⟩ : HistEntry) := by
        rcases List.mem_append.mp ha with h1 | h2
        · exact List.eq_of_mem_replicate h1
        · simpa using h2
      subst ha0
      decide
    rw [h, List.length_append, List.length_replicate]
    norm_num
  · decide

end AIMetrics

namespace OrgCache

/-- `CacheEntry` (organizations.py:27-32): payload, creation time, ttl in
seconds (times modelled as integers). -/
structure CacheEntry (α : Type) where
  data : α
  created_at : Int
  ttl : Int
deriving DecidableEq

/-- `CacheEntry.is_expired` (organizations.py:34-36):
`datetime.now() > created_at + ttl`. -/
def CacheEntry.isExpired (now : Int) (e : CacheEntry α) : Bool :=
  decide (e.created_at + e.ttl < now)

/-- The cache-relevant state of `OrganizationManager`: the `_cache` dict plus
the hit/miss counters kept by its metrics collector
(`record_cache_hit` / `record_cache_miss`). -/
structure CacheState (α : Type) where
  cache : List (String × CacheEntry α)
  hits : Nat
  misses : Nat
deriving DecidableEq

/-- Python `del cache[key]` on a dict: drop the binding of `key`. -/
def deleteKey (k : String) (c : List (String × CacheEntry α)) :
    List (String × CacheEntry α) :=
  c.filter (fun p => !(p.1 == k))

/-- Python dict assignment `cache[key] = entry`: replace the existing binding
or append a new one. -/
def setKey (k : String) (v : α) : List (String × α) → List (String × α)
  | [] => [(k, v)]
  | (k', v') :: rest => if k' = k then (k, v) :: rest else (k', v') :: setKey k v rest

/-- `OrganizationManager._get_from_cache` (organizations.py:85-94): a present,
unexpired entry is a hit and returns its data; an expired entry is deleted;
every non-hit path records a miss and returns `None`. -/
def getFromCache (now : Int) (key : String) (s : CacheState α) :
    Option α × CacheState α :=
  match lookupKey key s.cache with
  | some entry =>
    if entry.isExpired now = false then
      (some entry.data, { s with hits := s.hits + 1 })
    else
      (none, { s with cache := deleteKey key s.cache, misses := s.misses + 1 })
  | none => (none, { s with misses := s.misses + 1 })

/-- `OrganizationManager._set_cache` (organizations.py:96-98): store the data
with the manager's ttl, created now. -/
def setCache (now ttl : Int) (key : String) (data : α) (s : CacheState α) : CacheState α :=
  { s with cache := setKey key ⟨data, now, ttl⟩ s.cache }

/-- `OrganizationManager._invalidate_cache` (organizations.py:100-104):
collect the keys starting with the given string, then delete each. -/
def invalidateCache (pre : String) (c : List (String × CacheEntry α)) :
    List (String × CacheEntry α) :=
  let keysToRemove := (c.filter (fun p => p.1.startsWith pre)).map (fun p => p.1)
  keysToRemove.foldl (fun acc k => deleteKey k acc) c

theorem lookupKey_deleteKey_self (k : String) :
    ∀ c : List (String × CacheEntry α), lookupKey k (deleteKey k c) = none
  | [] => rfl
  | (k', v) :: rest => by
    have ih := lookupKey_deleteKey_self k rest
    simp only [deleteKey] at ih ⊢
    by_cases h : k' = k
    · simp [List.filter_cons, h, ih]
    · simp [List.filter_cons, h, lookupKey, ih]

/-- C6: a `get` on a key whose entry's TTL has elapsed
(`now > created_at + ttl`) returns no value, removes the entry, and records a
miss. -/
theorem expired_get_is_miss_and_removes (now : Int) (key : String)
    (s : CacheState α) (entry : CacheEntry α)
    (hk : lookupKey key s.cache = some entry)
    (hexp : entry.isExpired now = true) :
    (getFromCache now key s).1 = none ∧
    lookupKey key (getFromCache now key s).2.cache = none ∧
    (getFromCache now key s).2.misses = s.misses + 1 := by
  simp only [getFromCache, hk, hexp]
  exact ⟨rfl, lookupKey_deleteKey_self key s.cache, rfl⟩

/-- Witness for C6: one entry created at 0 with ttl 300, read at time 1000. -/
theorem expired_get_is_miss_and_removes_witness :
    (getFromCache 1000 "orgs:" (⟨[("orgs:", ⟨["o1"], 0, 300⟩)], 0, 0⟩ : CacheState (List String))).1 = none ∧
    lookupKey "orgs:" (getFromCache 1000 "orgs:" (⟨[("orgs:", ⟨["o1"], 0, 300⟩)], 0, 0⟩ : CacheState (List String))).2.cache = none ∧
    (getFromCache 1000 "orgs:" (⟨[("orgs:", ⟨["o1"], 0, 300⟩)], 0, 0⟩ : CacheState (List String))).2.misses = 0 + 1 :=
  expired_get_is_miss_and_removes 1000 "orgs:" _ ⟨["o1"], 0, 300⟩ rfl rfl

theorem foldl_deleteKey (ks : List String) :
    ∀ c : List (String × CacheEntry α),
      ks.foldl (fun acc k => deleteKey k acc) c =
      c.filter (fun p => !(ks.contains p.1)) := by
  induction ks with
  | nil => intro c; simp
  | cons k ks ih =>
    intro c
    rw [List.foldl_cons, ih (deleteKey k c)]
    rw [deleteKey, List.filter_filter]
    apply List.filter_congr
    intro p _
    simp only [List.contains_cons, Bool.not_or]
    by_cases hpk : p.1 = k <;> simp [hpk, Bool.and_comm]

/-- C7: prefix invalidation removes exactly the bindings whose key starts
with the prefix string and leaves every other binding (and their order)
unchanged: it equals a filter by "does not start with the prefix". -/
theorem invalidateCache_eq_filter (pre : String)
    (c : List (String × CacheEntry α)) :
    invalidateCache pre c = c.filter (fun p => !(p.1.startsWith pre)) := by
  rw [invalidateCache, foldl_deleteKey]
  apply List.filter_congr
  intro p hp
  congr 1
  show ((c.filter (fun q => q.1.startsWith pre)).map (fun q => q.1)).contains p.1 =
    p.1.startsWith pre
  cases h : p.1.startsWith pre with
  | true =>
    have hm : p.1 ∈ (c.filter (fun q => q.1.startsWith pre)).map (fun q => q.1) :=
      List.mem_map.mpr ⟨p, List.mem_filter.mpr ⟨hp, h⟩, rfl⟩
    simpa using hm
  | false =>
    cases hc : ((c.filter (fun q => q.1.startsWith pre)).map (fun q => q.1)).contains p.1 with
    | false => rfl
    | true =>
      have hc' : (∃ x, (p.1, x) ∈ c) ∧ p.1.startsWith pre = true := by simpa using hc
      rw [hc'.2] at h
      cases h

theorem lookupKey_setKey_self (k : String) (v : α) :
    ∀ c : List (String × α), lookupKey k (setKey k v c) = some v
  | [] => by simp [setKey, lookupKey]
  | (k', v') :: rest => by
    by_cases h : k' = k
    · simp [setKey, h, lookupKey]
    · simp [setKey, h, lookupKey, lookupKey_setKey_self k v rest]

/-- An organization descriptor (`OrganizationInfo`, organizations.py:55-61);
only identity matters to the cache claims. -/
structure Org where
  org_id : String
deriving DecidableEq

/-- `OrganizationManager.get_organizations` (organizations.py:106-126),
restricted to its cache behaviour: read the `"orgs:"` key
(`_get_cache_key("orgs")` with no further arguments); `if cached_data:` tests
the payload for *truthiness*, so an empty cached list falls through to the
external fetch, whose result is stored back and returned. The fetch result
and the manager's ttl are passed in as values. -/
def getOrganizations (now ttl : Int) (fetched : List Org)
    (s : CacheState (List Org)) : List Org × CacheState (List Org) :=
  let r := getFromCache now "orgs:" s
  let s1 := r.2
  let fetchPath := (fetched, setCache now ttl "orgs:" fetched s1)
  match r.1 with
  | some data => if data.isEmpty then fetchPath else (data, s1)
  | none => fetchPath

/-- C10: with an unexpired cache entry holding a falsy payload (the empty
organization list), `get_organizations` records a cache hit yet still
performs the external fetch and overwrites the cached value with the fetch
result. -/
theorem empty_cached_list_refetches (now ttl : Int) (fetched : List Org)
    (s : CacheState (List Org)) (entry : CacheEntry (List Org))
    (hk : lookupKey "orgs:" s.cache = some entry)
    (hexp : entry.isExpired now = false)
    (hdata : entry.data = []) :
    (getOrganizations now ttl fetched s).1 = fetched ∧
    (getOrganizations now ttl fetched s).2.hits = s.hits + 1 ∧
    lookupKey "orgs:" (getOrganizations now ttl fetched s).2.cache =
      some ⟨fetched, now, ttl⟩ := by
  simp only [getOrganizations, getFromCache, setCache, hk, hexp, hdata,
    if_true, List.isEmpty_nil]
  exact ⟨trivial, trivial, lookupKey_setKey_self _ _ _⟩

/-- Witness for C10: an unexpired entry caching `[]`, fetch returns one org. -/
theorem empty_cached_list_refetches_witness :
    (getOrganizations 10 300 [⟨"org1"⟩] (⟨[("orgs:", ⟨[], 0, 300⟩)], 0, 0⟩ : CacheState (List Org))).1 = [⟨"org1"⟩] ∧
    (getOrganizations 10 300 [⟨"org1"⟩] (⟨[("orgs:", ⟨[], 0, 300⟩)], 0, 0⟩ : CacheState (List Org))).2.hits = 0 + 1 ∧
    lookupKey "orgs:" (getOrganizations 10 300 [⟨"org1"⟩] (⟨[("orgs:", ⟨[], 0, 300⟩)], 0, 0⟩ : CacheState (List Org))).2.cache =
      some ⟨[⟨"org1"⟩], 10, 300⟩ :=
  empty_cached_list_refetches 10 300 [⟨"org1"⟩] _ ⟨[], 0, 300⟩ rfl rfl rfl

end OrgCache

namespace Agents

/-- An alert dict as aggregated by the agents' `analyze` loops: the optional
entity scope (`'node_id'` is present only on the error alerts the node agent
builds itself, node_agent.py:80-84), the `'type'` and the `'message'`. -/
structure Alert where
  entity_id : Option String
  type : String
  message : String
deriving DecidableEq

/-- A recommendation dict (`{'node_id'/'service_id', 'action', 'reason'}`). -/
structure Recommendation where
  entity_id : String
  action : String
  reason : String
deriving DecidableEq

/-- What the per-entity collection+analysis step yields on success: the
fields of `metrics_analysis` the analyze loops read (`status`, `health`,
`alerts`, `trends`). -/
structure StepResult where
  status : String
  health : String
  alerts : List Alert
  trends : List (String × String)
deriving DecidableEq

/-- The per-entity slice stored under `analysis['nodes'][id]` /
`analysis['services'][id]`. -/
structure EntityEntry where
  status : String
  health : String
  trends : List (String × String)
deriving DecidableEq

/-- The aggregate `analysis` dict built by `analyze`. -/
structure AgentAnalysis where
  entities : List (String × EntityEntry)
  recommendations : List Recommendation
  alerts : List Alert
deriving DecidableEq

/-- The recommendation block of `NodeManagementAgent.analyze`
(node_agent.py:58-76). -/
def nodeRecommendationFor (node_id : String) (r : StepResult) : List Recommendation :=
  if r.status = "offline" then [⟨node_id, "check_health", "Node is offline"⟩]
  else if r.health = "critical" then [⟨node_id, "update", "Node health is critical"⟩]
  else if r.health = "warning" then
    if lookupKey "disk_usage" r.trends = some "increasing" then
      [⟨node_id, "cleanup", "Disk usage is increasing"⟩]
    else []
  else []

/-- The per-entity loop of `NodeManagementAgent.analyze` (node_agent.py:40-85).
The collector pipeline for one node (`collect_metrics` then
`analyze_metrics`; `BaseMetricsCollector` itself is not in the sources) is
passed in as `step`; an exception anywhere in the per-entity body surfaces as
`Except.error`. The `try/except` around the body catches it, appends an
error alert scoped to the node, and continues with the next node. -/
def nodeAnalyze (nodes : List (String × δ))
    (step : String → δ → Except String StepResult) : AgentAnalysis :=
  nodes.foldl (fun acc p =>
    match step p.1 p.2 with
    | .ok r =>
      { entities := acc.entities ++ [(p.1, ⟨r.status, r.health, r.trends⟩)]
        recommendations := acc.recommendations ++ nodeRecommendationFor p.1 r
        alerts := acc.alerts ++ r.alerts }
    | .error e =>
      { acc with alerts := acc.alerts ++ [⟨some p.1, "error", "Analysis failed: " ++ e⟩] })
    ⟨[], [], []⟩

/-- The recommendation block of `ServiceManagementAgent.analyze`
(service_agent.py:95-114). -/
def serviceRecommendationFor (service_id : String) (r : StepResult) : List Recommendation :=
  if r.status = "failed" then [⟨service_id, "restart", "Service has failed"⟩]
  else if r.health = "critical" then [⟨service_id, "update", "Service health is critical"⟩]
  else if r.health = "warning" then
    if lookupKey "cpu_usage" r.trends = some "increasing" then
      [⟨service_id, "scale", "CPU usage is increasing"⟩]
    else []
  else []

/-- The per-entity loop of `ServiceManagementAgent.analyze`
(service_agent.py:60-116): unlike the node agent, the body has **no**
`try/except`, so the first exception raised while collecting or analyzing a
service propagates out of `analyze` and aborts the whole batch. -/
def serviceAnalyze (services : List (String × δ))
    (step : String → δ → Except String StepResult) : Except String AgentAnalysis :=
  services.foldl (fun acc p =>
    match acc with
    | .error e => .error e
    | .ok a =>
      match step p.1 p.2 with
      | .ok r =>
        .ok { entities := a.entities ++ [(p.1, ⟨r.status, r.health, r.trends⟩)]
              recommendations := a.recommendations ++ serviceRecommendationFor p.1 r
              alerts := a.alerts ++ r.alerts }
      | .error e => .error e)
    (.ok ⟨[], [], []⟩)

/-- The failing input of claim C2: three entities, the second one's
collection raises. -/
def cexStep : String → Unit → Except String StepResult :=
  fun id _ => if id = "e2" then .error "Test error" else .ok ⟨"running", "healthy", [], []⟩

def cexEntities : List (String × Unit) := [("e1", ()), ("e2", ()), ("e3", ())]

/-- C2 (code bug): on a 3-entity batch where entity #2's step raises, the
node agent isolates the failure exactly as the claim says (results for #1 and
#3 plus one error alert scoped to #2), but the service agent's `analyze`
propagates the exception and aborts the whole batch, contradicting the claim
and the repository's own test
(`test_analyze_service_error`, tests/ai/test_service_agent.py:52-61). -/
theorem service_analyze_aborts_on_entity_error :
    serviceAnalyze cexEntities cexStep = .error "Test error" ∧
    nodeAnalyze cexEntities cexStep =
      ⟨[("e1", ⟨"running", "healthy", []⟩), ("e3", ⟨"running", "healthy", []⟩)],
       [],
       [⟨some "e2", "error", "Analysis failed: Test error"⟩]⟩ :=
  ⟨rfl, rfl⟩

end Agents

namespace NodeAgent

/-- Substring test over char lists (Python `pat in s`). -/
def listContainsSub (pat : List Char) : List Char → Bool
  | [] => pat.isPrefixOf ([] : List Char)
  | c :: rest => pat.isPrefixOf (c :: rest) || listContainsSub pat rest

/-- Python `pat in s` on strings. -/
def strContainsSub (s pat : String) : Bool := listContainsSub pat.data s.data

/-- ASCII lower-casing of one character (Python `str.lower()`; all message
strings involved are ASCII). -/
def lowerChar (c : Char) : Char :=
  if 'A' ≤ c ∧ c ≤ 'Z' then Char.ofNat (c.toNat + 32) else c

/-- Python `s.lower()`. -/
def lowerStr (s : String) : String := ⟨s.data.map lowerChar⟩

/-- The dict the exchange client returns from `delete_node` — the keys
`delete_node` reads (`status`, `message`, `error`), each possibly absent. -/
structure ApiResult where
  status? : Option String
  message? : Option String
  error? : Option String
deriving DecidableEq

/-- The `{'status': ..., 'message': ...}` dict `delete_node` returns. -/
structure ActionResult where
  status : String
  message : String
deriving DecidableEq

/-- `NodeManagementAgent.delete_node` (node_agent.py:282-331). The underlying
`client.delete_node` call is passed in as its outcome: `.ok` with the
(possibly `None`) result dict, or `.error` with the raised exception's
message. The except-branch lower-cases the message and classifies it by the
substrings `'not found'`, `'api'`, `'dependencies'` in that order. -/
def deleteNode (node_id : String) (callResult : Except String (Option ApiResult)) :
    ActionResult :=
  if node_id = "" then
    ⟨"error", "Validation error: node_id must be a non-empty string."⟩
  else
    match callResult with
    | .ok result =>
      match result with
      | some r =>
        if r.status? = some "success" then
          ⟨"success", r.message?.getD "Node deleted successfully."⟩
        else
          match r.error? with
          | some e => ⟨"error", e⟩
          | none => ⟨"error", "Unknown error during node deletion."⟩
      | none => ⟨"error", "Unknown error during node deletion."⟩
    | .error e =>
      let msg := lowerStr e
      if strContainsSub msg "not found" then ⟨"error", "Node not found: " ++ e⟩
      else if strContainsSub msg "api" then ⟨"error", "API error: " ++ e⟩
      else if strContainsSub msg "dependencies" then
        ⟨"error", "Cannot delete node: dependencies exist. " ++ e⟩
      else ⟨"error", "Node deletion failed: " ++ e⟩

/-- C8: for every non-empty node id, when the underlying call raises
`'Cannot delete: dependencies exist'`, `delete_node` returns a failure result
(`status = 'error'`, no exception) whose message contains `'dependencies'`. -/
theorem delete_node_dependencies_error (node_id : String) (h : node_id ≠ "") :
    (deleteNode node_id (.error "Cannot delete: dependencies exist")).status = "error" ∧
    strContainsSub (deleteNode node_id (.error "Cannot delete: dependencies exist")).message
      "dependencies" = true := by
  rw [deleteNode, if_neg h]
  exact ⟨rfl, rfl⟩

/-- Witness for C8 at the node id `"x"`. -/
theorem delete_node_dependencies_error_witness :
    (deleteNode "x" (.error "Cannot delete: dependencies exist")).status = "error" ∧
    strContainsSub (deleteNode "x" (.error "Cannot delete: dependencies exist")).message
      "dependencies" = true :=
  delete_node_dependencies_error "x" (by decide)

end NodeAgent
